import Mathlib

/-!
Shallow embedding of `src/mui-form/components/MuiAutocomplete.tsx`:
a binding adapter connecting a MUI `Autocomplete` widget to a
`react-hook-form` controller.

JavaScript subtleties modelled explicitly:
* `undefined` and `null` are distinct values (`ChangeValue.undef` vs
  `ChangeValue.nullV`); optional chaining `x?.f` yields `undefined`
  when `x` is `null` or `undefined`.
* `a && b` returns the first falsy operand itself (`undefined` or
  `false`), not a normalized boolean (`HelperTextValue`).
* JSX spread semantics: `<El {...a} k=v />` builds a props record where
  attributes written later override keys coming from earlier spreads.
  Partial records with `Option` fields model presence/absence of a key,
  and a right-biased merge models the spread order.
-/

namespace MuiRhf

/-- `AutocompleteOption`: the selectable unit, `{ label: string }`. -/
structure AutocompleteOption where
  label : String
deriving DecidableEq, Repr

/-- The `config` prop: two optional behavior flags. -/
structure Config where
  displayErrorMessage : Option Bool := none
  manageWithLabel : Option Bool := none
deriving DecidableEq, Repr

/-- A react-hook-form `FieldError`; its `message` is optional. -/
structure FieldError where
  message : Option String := none
deriving DecidableEq, Repr

/-- The Validation State Handle (`fieldState` from `useController`):
`error` is `undefined` when the field is valid. -/
structure FieldState where
  error : Option FieldError := none
deriving DecidableEq, Repr

/-- The Field Control Handle (`field` from `useController`): the parts
the adapter reads (`ref` is kept symbolic as a number). -/
structure Field where
  ref : Nat
  name : String
  value : String
deriving DecidableEq, Repr

/-- The JavaScript value the adapter passes to `field.onChange`. -/
inductive ChangeValue where
  | undef
  | nullV
  | optionV (o : AutocompleteOption)
  | labelV (s : String)
deriving DecidableEq, Repr

/-- Truthiness of `config?.manageWithLabel`: `undefined` (absent
`config` or absent flag) and `false` are falsy. -/
def manageWithLabelFlag (config : Option Config) : Bool :=
  (config.bind Config.manageWithLabel).getD false

/-- Truthiness of `config?.displayErrorMessage`. -/
def displayErrorMessageFlag (config : Option Config) : Bool :=
  (config.bind Config.displayErrorMessage).getD false

/-- The argument of the `field.onChange` call in the `onChange` handler:
`config?.manageWithLabel ? value?.label : value`, where `value` is the
selected option or `null` when the selection was cleared.  Note that
`value?.label` is `undefined` when `value` is `null`. -/
def onChangeArgument (config : Option Config) (value : Option AutocompleteOption) :
    ChangeValue :=
  if manageWithLabelFlag config then
    match value with
    | none => ChangeValue.undef
    | some o => ChangeValue.labelV o.label
  else
    match value with
    | none => ChangeValue.nullV
    | some o => ChangeValue.optionV o

/-- The JavaScript value of the `helperText` expression: `undefined`,
`false`, or a string. -/
inductive HelperTextValue where
  | undef
  | falseV
  | strV (s : String)
deriving DecidableEq, Repr

/-- JavaScript falsiness of a helper-text value (the empty string is
falsy). -/
def HelperTextValue.isFalsy : HelperTextValue → Bool
  | HelperTextValue.undef => true
  | HelperTextValue.falseV => true
  | HelperTextValue.strV s => s = ""

/-- The expression `config?.displayErrorMessage && fieldState.error?.message`:
`&&` returns the first operand itself when it is falsy (`undefined` or
`false`), otherwise the second operand (`undefined` when the error or
its message is absent). -/
def helperTextValue (config : Option Config) (error : Option FieldError) :
    HelperTextValue :=
  match config.bind Config.displayErrorMessage with
  | none => HelperTextValue.undef
  | some false => HelperTextValue.falseV
  | some true =>
    match error.bind FieldError.message with
    | none => HelperTextValue.undef
    | some m => HelperTextValue.strV m

/-- A partial record of `TextField` props: `none` means the key is
absent.  `fullWidth` stands for the computed input parameters the
`Autocomplete` widget supplies to `renderInput` besides the keys the
adapter touches. -/
structure TextFieldRecord where
  label : Option String := none
  name : Option String := none
  value : Option String := none
  inputRef : Option Nat := none
  error : Option Bool := none
  helperText : Option HelperTextValue := none
  fullWidth : Option Bool := none
deriving DecidableEq, Repr

/-- Right-biased merge of two `TextField` prop records: keys present in
`b` (written later in JSX) override keys of `a`. -/
def mergeTextField (a b : TextFieldRecord) : TextFieldRecord :=
  { label := b.label <|> a.label
    name := b.name <|> a.name
    value := b.value <|> a.value
    inputRef := b.inputRef <|> a.inputRef
    error := b.error <|> a.error
    helperText := b.helperText <|> a.helperText
    fullWidth := b.fullWidth <|> a.fullWidth }

/-- The attributes the adapter writes explicitly on `TextField`, after
the two spreads: `inputRef`, `name`, `value`, `error`, `helperText`. -/
def textFieldExplicitAttrs (field : Field) (fieldState : FieldState)
    (config : Option Config) : TextFieldRecord :=
  { inputRef := some field.ref
    name := some field.name
    value := some field.value
    error := some fieldState.error.isSome
    helperText := some (helperTextValue config fieldState.error) }

/-- The `renderInput` callback: given the widget's computed `params`,
build the `TextField` props as `{...textFieldProps} {...params}`
followed by the adapter's explicit attributes. -/
def renderInputFn (textFieldProps : Option TextFieldRecord) (field : Field)
    (fieldState : FieldState) (config : Option Config)
    (params : TextFieldRecord) : TextFieldRecord :=
  mergeTextField (mergeTextField (textFieldProps.getD {}) params)
    (textFieldExplicitAttrs field fieldState config)

/-- A selection-change handler value: either one the caller supplied in
`autocompleteProps` (kept symbolic), or the adapter's own lambda which
invokes `field.onChange` with `onChangeArgument`. -/
inductive ChangeHandlerSpec where
  | callerSupplied (i : Nat)
  | adapterOnChange (config : Option Config)
deriving DecidableEq, Repr

/-- A blur handler value: either caller supplied, or exactly
`field.onBlur`. -/
inductive BlurHandlerSpec where
  | callerSupplied (i : Nat)
  | fieldOnBlur
deriving DecidableEq, Repr

/-- The caller's `autocompleteProps` (its type omits `renderInput`).
`disablePortal` stands for the pass-through keys the adapter does not
touch. -/
structure AutocompleteSettings where
  disablePortal : Option Bool := none
  id : Option String := none
  options : Option (List AutocompleteOption) := none
  getOptionLabel : Option (AutocompleteOption → String) := none
  onChange : Option ChangeHandlerSpec := none
  onBlur : Option BlurHandlerSpec := none

/-- A partial record of `Autocomplete` props, including `renderInput`. -/
structure AutocompleteRecord where
  disablePortal : Option Bool := none
  id : Option String := none
  options : Option (List AutocompleteOption) := none
  getOptionLabel : Option (AutocompleteOption → String) := none
  onChange : Option ChangeHandlerSpec := none
  onBlur : Option BlurHandlerSpec := none
  renderInput : Option (TextFieldRecord → TextFieldRecord) := none

/-- The keys contributed by the spread `{...autocompleteProps}` (no
keys at all when `autocompleteProps` is `undefined`). -/
def autocompleteSpread : Option AutocompleteSettings → AutocompleteRecord
  | none => {}
  | some a =>
    { disablePortal := a.disablePortal
      id := a.id
      options := a.options
      getOptionLabel := a.getOptionLabel
      onChange := a.onChange
      onBlur := a.onBlur
      renderInput := none }

/-- Right-biased merge of two `Autocomplete` prop records. -/
def mergeAutocomplete (a b : AutocompleteRecord) : AutocompleteRecord :=
  { disablePortal := b.disablePortal <|> a.disablePortal
    id := b.id <|> a.id
    options := b.options <|> a.options
    getOptionLabel := b.getOptionLabel <|> a.getOptionLabel
    onChange := b.onChange <|> a.onChange
    onBlur := b.onBlur <|> a.onBlur
    renderInput := b.renderInput <|> a.renderInput }

/-- The attributes written explicitly on `Autocomplete` after the
spread.  `id={autocompleteProps?.id}` re-sets `id` to the value the
spread already gave it, so it is modelled with that same value;
`options` is defaulted with `?? []`; `getOptionLabel`, `onChange`,
`onBlur` and `renderInput` are the adapter's own. -/
def autocompleteExplicitAttrs (acProps : Option AutocompleteSettings)
    (tfProps : Option TextFieldRecord) (config : Option Config)
    (field : Field) (fieldState : FieldState) : AutocompleteRecord :=
  { disablePortal := none
    id := acProps.bind AutocompleteSettings.id
    options := some ((acProps.bind AutocompleteSettings.options).getD [])
    getOptionLabel := some (fun option => option.label)
    onChange := some (ChangeHandlerSpec.adapterOnChange config)
    onBlur := some BlurHandlerSpec.fieldOnBlur
    renderInput := some (renderInputFn tfProps field fieldState config) }

/-- The `muiProps` prop: settings for the two MUI elements. -/
structure MuiProps where
  autocompleteProps : Option AutocompleteSettings := none
  textFieldProps : Option TextFieldRecord := none

/-- The full props of `MuiAutocomplete`: controller settings (`name`,
`control`, `rules` — `control` kept symbolic as a number, `rules` as an
optional required-message) plus `config` and `muiProps`. -/
structure MuiAutocompleteProps where
  name : String
  control : Nat
  rules : Option String := none
  config : Option Config := none
  muiProps : Option MuiProps := none

/-- What reaches `useController`: the rest pattern `...others` of
`const { muiProps, config, ...others } = props`. -/
structure UseControllerArgs where
  name : String
  control : Nat
  rules : Option String
deriving DecidableEq, Repr

/-- `useController(others)` argument: `props` with `muiProps` and
`config` split off. -/
def controllerArgs (props : MuiAutocompleteProps) : UseControllerArgs :=
  { name := props.name
    control := props.control
    rules := props.rules }

/-- The rendering description the component returns: the props of the
`Autocomplete` element, built as the spread of `autocompleteProps`
overridden by the explicitly written attributes. -/
def renderMuiAutocomplete (props : MuiAutocompleteProps) (field : Field)
    (fieldState : FieldState) : AutocompleteRecord :=
  let acProps := props.muiProps.bind MuiProps.autocompleteProps
  let tfProps := props.muiProps.bind MuiProps.textFieldProps
  mergeAutocomplete (autocompleteSpread acProps)
    (autocompleteExplicitAttrs acProps tfProps props.config field fieldState)

/-! Projection lemmas for the built prop records. -/

theorem renderInputFn_helperText (tfProps : Option TextFieldRecord) (field : Field)
    (fieldState : FieldState) (config : Option Config) (params : TextFieldRecord) :
    (renderInputFn tfProps field fieldState config params).helperText
      = some (helperTextValue config fieldState.error) := rfl

theorem renderInputFn_error (tfProps : Option TextFieldRecord) (field : Field)
    (fieldState : FieldState) (config : Option Config) (params : TextFieldRecord) :
    (renderInputFn tfProps field fieldState config params).error
      = some fieldState.error.isSome := rfl

theorem renderInputFn_label (tfp : TextFieldRecord) (field : Field)
    (fieldState : FieldState) (config : Option Config) (params : TextFieldRecord) :
    (renderInputFn (some tfp) field fieldState config params).label
      = (params.label <|> tfp.label) := rfl

theorem renderInputFn_name (tfProps : Option TextFieldRecord) (field : Field)
    (fieldState : FieldState) (config : Option Config) (params : TextFieldRecord) :
    (renderInputFn tfProps field fieldState config params).name
      = some field.name := rfl

theorem renderMuiAutocomplete_options (props : MuiAutocompleteProps) (field : Field)
    (fieldState : FieldState) :
    (renderMuiAutocomplete props field fieldState).options
      = some (((props.muiProps.bind MuiProps.autocompleteProps).bind
          AutocompleteSettings.options).getD []) := rfl

/-! Claim theorems. -/

/-- C1 counterexample: the claim says clearing always reaches the change
notifier as `null`, never `undefined`; but with `manageWithLabel` true,
the adapter passes `value?.label`, which on a cleared (`null`) value is
`undefined`, not `null`. -/
theorem c1_clear_counterexample :
    onChangeArgument (some { displayErrorMessage := none, manageWithLabel := some true })
        none = ChangeValue.undef ∧
    onChangeArgument (some { displayErrorMessage := none, manageWithLabel := some true })
        none ≠ ChangeValue.nullV := by
  exact ⟨rfl, by decide⟩

/-- C1 (amended): clearing the selection invokes the change notifier
with `null` when `manageWithLabel` is absent (no `config`, or the flag
unset) or `false`; when `manageWithLabel` is `true` it invokes it with
`undefined` (the value of `value?.label` on a `null` value). -/
theorem c1_clear_amended (c : Config) :
    onChangeArgument none none = ChangeValue.nullV ∧
    onChangeArgument (some { c with manageWithLabel := none }) none = ChangeValue.nullV ∧
    onChangeArgument (some { c with manageWithLabel := some false }) none
      = ChangeValue.nullV ∧
    onChangeArgument (some { c with manageWithLabel := some true }) none
      = ChangeValue.undef := by
  exact ⟨rfl, rfl, rfl, rfl⟩

/-- C3: selecting an option `o` invokes the change notifier with the
string `o.label` when `config?.manageWithLabel` is truthy (i.e. set to
`true`), and with the option object `o` itself when it is unset or
`false`. -/
theorem c3_selection (config : Option Config) (o : AutocompleteOption) :
    (manageWithLabelFlag config = true →
      onChangeArgument config (some o) = ChangeValue.labelV o.label) ∧
    (manageWithLabelFlag config = false →
      onChangeArgument config (some o) = ChangeValue.optionV o) := by
  refine ⟨fun h => ?_, fun h => ?_⟩ <;> simp [onChangeArgument, h]

/-- C3 witness: concrete instances of both branches. -/
theorem c3_selection_witness :
    onChangeArgument (some { displayErrorMessage := none, manageWithLabel := some true })
        (some { label := "X" }) = ChangeValue.labelV "X" ∧
    onChangeArgument none (some { label := "X" })
      = ChangeValue.optionV { label := "X" } :=
  ⟨(c3_selection (some { displayErrorMessage := none, manageWithLabel := some true })
      { label := "X" }).1 rfl,
   (c3_selection none { label := "X" }).2 rfl⟩

/-- C4: with the field invalid with message `m`, the rendered helper
text equals `m` exactly when `displayErrorMessage` is set to `true`;
when the flag is `false` or unset, the helper text is a falsy value
(`false` or `undefined`) which is neither the message nor the empty
string. -/
theorem c4_helperText (tfProps : Option TextFieldRecord) (field : Field)
    (config : Option Config) (params : TextFieldRecord) (m : String) :
    ((renderInputFn tfProps field { error := some { message := some m } } config
        params).helperText = some (HelperTextValue.strV m) ↔
      displayErrorMessageFlag config = true) ∧
    (displayErrorMessageFlag config = false →
      ∃ h, (renderInputFn tfProps field { error := some { message := some m } } config
          params).helperText = some h ∧
        h.isFalsy = true ∧ h ≠ HelperTextValue.strV m ∧ h ≠ HelperTextValue.strV "") := by
  rw [renderInputFn_helperText]
  rcases hc : config.bind Config.displayErrorMessage with _ | b
  · constructor
    · simp [helperTextValue, hc, displayErrorMessageFlag]
    · intro _
      exact ⟨HelperTextValue.undef, by simp [helperTextValue, hc], rfl, by simp, by simp⟩
  · rcases b with _ | _
    · constructor
      · simp [helperTextValue, hc, displayErrorMessageFlag]
      · intro _
        exact ⟨HelperTextValue.falseV, by simp [helperTextValue, hc], rfl, by simp, by simp⟩
    · constructor
      · simp [helperTextValue, hc, displayErrorMessageFlag]
      · intro h
        rw [displayErrorMessageFlag, hc] at h
        simp at h

/-- C4 witness: with `displayErrorMessage` true and error message
`"Required"`, the helper text is `"Required"`; with it unset, the helper
text is a falsy non-string value. -/
theorem c4_helperText_witness :
    (renderInputFn none { ref := 0, name := "film", value := "" }
        { error := some { message := some "Required" } }
        (some { displayErrorMessage := some true, manageWithLabel := none })
        {}).helperText = some (HelperTextValue.strV "Required") ∧
    ∃ h, (renderInputFn none { ref := 0, name := "film", value := "" }
        { error := some { message := some "Required" } } none {}).helperText = some h ∧
      h.isFalsy = true ∧ h ≠ HelperTextValue.strV "Required" ∧ h ≠ HelperTextValue.strV "" :=
  ⟨(c4_helperText none { ref := 0, name := "film", value := "" }
      (some { displayErrorMessage := some true, manageWithLabel := none })
      {} "Required").1.mpr rfl,
   (c4_helperText none { ref := 0, name := "film", value := "" } none {} "Required").2 rfl⟩

/-- C5: the rendered text input's `error` flag is `!!fieldState.error`:
`true` exactly when the Validation State Handle reports an error,
independently of `displayErrorMessage` (the statement quantifies over
arbitrary `config`); and the element's `renderInput` slot is the
adapter's callback. -/
theorem c5_errorFlag (props : MuiAutocompleteProps) (field : Field)
    (fieldState : FieldState) (params : TextFieldRecord) :
    ((renderMuiAutocomplete props field fieldState).renderInput
      = some (renderInputFn (props.muiProps.bind MuiProps.textFieldProps) field
          fieldState props.config)) ∧
    (fieldState.error.isSome = true →
      (renderInputFn (props.muiProps.bind MuiProps.textFieldProps) field fieldState
          props.config params).error = some true) ∧
    (fieldState.error = none →
      (renderInputFn (props.muiProps.bind MuiProps.textFieldProps) field fieldState
          props.config params).error = some false) := by
  refine ⟨rfl, fun h => ?_, fun h => ?_⟩
  · rw [renderInputFn_error, h]
  · rw [renderInputFn_error, h]
    rfl

/-- C5 witness: an invalid field yields `error = true` even with
`displayErrorMessage` false, and a valid field yields `error = false`. -/
theorem c5_errorFlag_witness :
    (renderInputFn none { ref := 0, name := "film", value := "" }
        { error := some { message := some "Required" } }
        (some { displayErrorMessage := some false, manageWithLabel := none })
        {}).error = some true ∧
    (renderInputFn none { ref := 0, name := "film", value := "" } {} none {}).error
      = some false :=
  ⟨(c5_errorFlag
      { name := "film", control := 0, rules := none,
        config := some { displayErrorMessage := some false, manageWithLabel := none },
        muiProps := none }
      { ref := 0, name := "film", value := "" }
      { error := some { message := some "Required" } } {}).2.1 rfl,
   (c5_errorFlag { name := "film", control := 0 }
      { ref := 0, name := "film", value := "" } {} {}).2.2 rfl⟩

/-- C2: three-tier precedence in the `TextField` props: the caller's
`textFieldProps` are the baseline, the widget's computed `params`
override them (shown on the `label` key), and the adapter's bindings
(`inputRef`, `name`, `value`, `error`, `helperText`) override both; in
particular a caller label `"Film"` survives (the computed params carry
no `label`) while `name` is the field's `"film"`. -/
theorem c2_textFieldPrecedence (tfp : TextFieldRecord) (params : TextFieldRecord)
    (field : Field) (fieldState : FieldState) (config : Option Config) :
    (renderInputFn (some tfp) field fieldState config params).inputRef
        = some field.ref ∧
    (renderInputFn (some tfp) field fieldState config params).name
        = some field.name ∧
    (renderInputFn (some tfp) field fieldState config params).value
        = some field.value ∧
    (renderInputFn (some tfp) field fieldState config params).error
        = some fieldState.error.isSome ∧
    (renderInputFn (some tfp) field fieldState config params).helperText
        = some (helperTextValue config fieldState.error) ∧
    (renderInputFn (some tfp) field fieldState config params).label
        = (params.label <|> tfp.label) ∧
    (params.label = none → tfp.label = some "Film" → field.name = "film" →
      (renderInputFn (some tfp) field fieldState config params).label = some "Film" ∧
      (renderInputFn (some tfp) field fieldState config params).name = some "film") := by
  refine ⟨rfl, rfl, rfl, rfl, rfl, rfl, fun h1 h2 h3 => ⟨?_, ?_⟩⟩
  · rw [renderInputFn_label, h1, h2]
    rfl
  · rw [renderInputFn_name, h3]

/-- C2 witness: caller `textFieldProps` with label `"Film"`, field name
`"film"`, empty computed params. -/
theorem c2_textFieldPrecedence_witness :
    (renderInputFn (some { label := some "Film" })
        { ref := 0, name := "film", value := "" } {} none {}).label = some "Film" ∧
    (renderInputFn (some { label := some "Film" })
        { ref := 0, name := "film", value := "" } {} none {}).name = some "film" :=
  (c2_textFieldPrecedence { label := some "Film" } {}
    { ref := 0, name := "film", value := "" } {} none).2.2.2.2.2.2 rfl rfl rfl

/-- C6: when the caller's dropdown settings omit `options` (or omit
`autocompleteProps` or `muiProps` entirely, making the lookup absent),
the rendered element carries the present, empty option list; when the
caller supplies a list, it is passed through unchanged. -/
theorem c6_options (props : MuiAutocompleteProps) (field : Field)
    (fieldState : FieldState) :
    ((props.muiProps.bind MuiProps.autocompleteProps).bind AutocompleteSettings.options
        = none →
      (renderMuiAutocomplete props field fieldState).options = some []) ∧
    (∀ l, (props.muiProps.bind MuiProps.autocompleteProps).bind
        AutocompleteSettings.options = some l →
      (renderMuiAutocomplete props field fieldState).options = some l) := by
  refine ⟨fun h => ?_, fun l h => ?_⟩ <;>
    rw [renderMuiAutocomplete_options, h] <;> rfl

/-- C6 witness: no `muiProps` at all yields the empty list; a supplied
one-element list passes through. -/
theorem c6_options_witness :
    (renderMuiAutocomplete { name := "film", control := 0 }
        { ref := 0, name := "film", value := "" } {}).options = some [] ∧
    (renderMuiAutocomplete
        { name := "film", control := 0, rules := none, config := none, muiProps := some { autocompleteProps := some { options := some [{ label := "The Matrix" }] } } }
        { ref := 0, name := "film", value := "" } {}).options
      = some [{ label := "The Matrix" }] :=
  ⟨(c6_options { name := "film", control := 0 }
      { ref := 0, name := "film", value := "" } {}).1 rfl,
   (c6_options
      { name := "film", control := 0, rules := none, config := none, muiProps := some { autocompleteProps := some { options := some [{ label := "The Matrix" }] } } }
      { ref := 0, name := "film", value := "" } {}).2 [{ label := "The Matrix" }] rfl⟩

/-- C7: the display-text extractor on the rendered element is always the
function reading the option's `label` field — also when the caller put
their own `getOptionLabel` (an arbitrary `f`) into `autocompleteProps`,
because the adapter's attribute is written after the spread. -/
theorem c7_getOptionLabel (props : MuiAutocompleteProps) (field : Field)
    (fieldState : FieldState) :
    (renderMuiAutocomplete props field fieldState).getOptionLabel
        = some (fun option => option.label) ∧
    ∀ (m : MuiProps) (a : AutocompleteSettings) (f : AutocompleteOption → String),
      (renderMuiAutocomplete
          { props with muiProps := some { m with autocompleteProps := some { a with getOptionLabel := some f } } }
          field fieldState).getOptionLabel
        = some (fun option => option.label) :=
  ⟨rfl, fun _ _ _ => rfl⟩

/-- C9: the rendered element's selection-change handler is the adapter's
translation into the field's change notifier and its blur handler is
exactly `field.onBlur`; caller-supplied `onChange`/`onBlur` handlers in
`autocompleteProps` are discarded because the adapter's attributes are
written after the spread. -/
theorem c9_handlers (props : MuiAutocompleteProps) (field : Field)
    (fieldState : FieldState) :
    ((renderMuiAutocomplete props field fieldState).onChange
        = some (ChangeHandlerSpec.adapterOnChange props.config) ∧
     (renderMuiAutocomplete props field fieldState).onBlur
        = some BlurHandlerSpec.fieldOnBlur) ∧
    ∀ (m : MuiProps) (a : AutocompleteSettings) (i j : Nat),
      (renderMuiAutocomplete
          { props with muiProps := some { m with autocompleteProps := some { a with onChange := some (ChangeHandlerSpec.callerSupplied i), onBlur := some (BlurHandlerSpec.callerSupplied j) } } }
          field fieldState).onChange
        = some (ChangeHandlerSpec.adapterOnChange props.config) ∧
      (renderMuiAutocomplete
          { props with muiProps := some { m with autocompleteProps := some { a with onChange := some (ChangeHandlerSpec.callerSupplied i), onBlur := some (BlurHandlerSpec.callerSupplied j) } } }
          field fieldState).onBlur
        = some BlurHandlerSpec.fieldOnBlur :=
  ⟨⟨rfl, rfl⟩, fun _ _ _ _ => ⟨rfl, rfl⟩⟩

/-- C8: `useController` receives exactly the props with `config` and
`muiProps` split off: each controller setting passes through unchanged,
and the argument does not depend on `config` or `muiProps`. -/
theorem c8_controllerArgs (props : MuiAutocompleteProps) :
    ((controllerArgs props).name = props.name ∧
     (controllerArgs props).control = props.control ∧
     (controllerArgs props).rules = props.rules) ∧
    ∀ (c : Option Config) (m : Option MuiProps),
      controllerArgs { props with config := c, muiProps := m } = controllerArgs props :=
  ⟨⟨rfl, rfl, rfl⟩, fun _ _ => rfl⟩

/-- C10: the adapter is a pure function of its props and the two handles
read from the controller: identical inputs give identical rendering
descriptions. -/
theorem c10_deterministic (p1 p2 : MuiAutocompleteProps) (f1 f2 : Field)
    (s1 s2 : FieldState) (hp : p1 = p2) (hf : f1 = f2) (hs : s1 = s2) :
    renderMuiAutocomplete p1 f1 s1 = renderMuiAutocomplete p2 f2 s2 := by
  rw [hp, hf, hs]

/-- C10 witness: two invocations at one concrete configuration agree. -/
theorem c10_deterministic_witness :
    renderMuiAutocomplete { name := "film", control := 0 }
        { ref := 0, name := "film", value := "" } {}
      = renderMuiAutocomplete { name := "film", control := 0 }
        { ref := 0, name := "film", value := "" } {} :=
  c10_deterministic { name := "film", control := 0 } { name := "film", control := 0 }
    { ref := 0, name := "film", value := "" } { ref := 0, name := "film", value := "" }
    {} {} rfl rfl rfl

end MuiRhf
